import Mathlib

/-!
Verification development for the HandsfreeClaw pairing/relay server
(`src/server/src/index.ts`).  The server's pure data manipulation is
embedded shallowly: SQLite tables become lists of rows, `Date.now()`
becomes a `Nat` of milliseconds, external randomness (`Math.random`,
`nanoid`) becomes explicit parameters, and the WebSocket broker becomes a
step function over an explicit state with an output log of `send` calls.
-/

/- ===== JS string helpers =====
`email.toLowerCase().trim()` from the source, embedded for ASCII via
character lists (JS lowercases A-Z; trim strips surrounding whitespace). -/

def asciiLowerChar (c : Char) : Char :=
  if 'A' ≤ c && c ≤ 'Z' then Char.ofNat (c.toNat + 32) else c

def isJsSpace (c : Char) : Bool :=
  c == ' ' || c == '\t' || c == '\n' || c == '\r'

def normalizeEmail (email : String) : String :=
  String.mk ((((email.data.map asciiLowerChar).dropWhile isJsSpace).reverse.dropWhile isJsSpace).reverse)

/-- Embeds JS `email.includes(chr)` at the single character used by the source. -/
def containsAt (s : String) : Bool := s.data.contains '@'

/-- Embeds `authHeader?.startsWith('Bearer ')` plus `authHeader.slice(7)`
from `authMiddleware`/the logout route. -/
def bearerToken (h : Option String) : Option String :=
  match h with
  | none => none
  | some s =>
      if s.data.take 7 = ("Bearer ").data then some (String.mk (s.data.drop 7)) else none

/- ===== Database rows (the SQLite tables) ===== -/

structure UserRow where
  id : Nat
  email : String
deriving DecidableEq

structure CodeRow where
  id : Nat
  email : String
  code : String
  expiresAt : Nat
  used : Bool
  createdAt : Nat
deriving DecidableEq

structure SessionRow where
  id : Nat
  userId : Nat
  token : String
  expiresAt : Nat
deriving DecidableEq

structure PairingRow where
  id : Nat
  userId : Nat
  gatewayToken : String
  name : Option String
deriving DecidableEq

structure DB where
  users : List UserRow
  codes : List CodeRow
  sessions : List SessionRow
  pairings : List PairingRow
  nextId : Nat
deriving DecidableEq

/- ===== Auth helpers (index.ts lines 91-151) ===== -/

def sessionLifetimeMs : Nat := 30 * 24 * 60 * 60 * 1000

def codeLifetimeMs : Nat := 10 * 60 * 1000

/-- `getOrCreateUser`: select by normalized email, insert when absent. -/
def getOrCreateUser (db : DB) (email : String) : UserRow × DB :=
  let ne := normalizeEmail email
  match db.users.find? (fun u => u.email == ne) with
  | some u => (u, db)
  | none =>
      let u : UserRow := ⟨db.nextId, ne⟩
      (u, { db with users := db.users ++ [u], nextId := db.nextId + 1 })

/-- `createSession`: the fresh `sess_` token from `nanoid` is a parameter. -/
def createSession (db : DB) (userId : Nat) (freshToken : String) (now : Nat) : String × DB :=
  let s : SessionRow := ⟨db.nextId, userId, freshToken, now + sessionLifetimeMs⟩
  (freshToken, { db with sessions := db.sessions ++ [s], nextId := db.nextId + 1 })

/-- `getUserFromSession`: join session to user, delete-on-read when
`new Date(expires_at) < new Date()` (strictly expired). -/
def getUserFromSession (db : DB) (token : String) (now : Nat) : Option UserRow × DB :=
  match db.sessions.find? (fun s => s.token == token) with
  | none => (none, db)
  | some s =>
      match db.users.find? (fun u => u.id == s.userId) with
      | none => (none, db)
      | some u =>
          if s.expiresAt < now then
            (none, { db with sessions := db.sessions.filter (fun r => !(r.token == token)) })
          else
            (some u, db)

/- ===== POST /api/auth/request-code (lines 156-176) ===== -/

inductive RequestOutcome
  | invalidInput
  | deliveryFailed
  | sent
deriving DecidableEq

/-- The random code and the notifier's success are parameters. -/
def requestCode (db : DB) (email code : String) (now : Nat) (delivered : Bool) :
    RequestOutcome × DB :=
  if email == "" || !(containsAt email) then (.invalidInput, db)
  else
    let row : CodeRow := ⟨db.nextId, normalizeEmail email, code, now + codeLifetimeMs, false, now⟩
    let db1 := { db with codes := db.codes ++ [row], nextId := db.nextId + 1 }
    if delivered then (.sent, db1) else (.deliveryFailed, db1)

/- ===== POST /api/auth/verify (lines 179-213) ===== -/

inductive VerifyOutcome
  | invalidInput
  | invalidCode
  | codeExpired
  | success (sessionToken : String) (email : String)
deriving DecidableEq

/-- `WHERE email = ? AND code = ? AND used = 0` -/
def codeMatches (ne code : String) (r : CodeRow) : Bool :=
  r.email == ne && r.code == code && !r.used

/-- `ORDER BY created_at DESC LIMIT 1` over the matching rows. -/
def latestMatch (rows : List CodeRow) (ne code : String) : Option CodeRow :=
  (rows.filter (codeMatches ne code)).foldl
    (fun acc r =>
      match acc with
      | none => some r
      | some b => if b.createdAt < r.createdAt then some r else some b) none

/-- `UPDATE verification_codes SET used = 1 WHERE id = ?` -/
def markUsed (rows : List CodeRow) (id : Nat) : List CodeRow :=
  rows.map (fun r => if r.id == id then { r with used := true } else r)

def verifyCode (db : DB) (email code : String) (now : Nat) (freshToken : String) :
    VerifyOutcome × DB :=
  if email == "" || code == "" then (.invalidInput, db)
  else
    let ne := normalizeEmail email
    match latestMatch db.codes ne code with
    | none => (.invalidCode, db)
    | some v =>
        if v.expiresAt < now then (.codeExpired, db)
        else
          let db1 := { db with codes := markUsed db.codes v.id }
          let ud := getOrCreateUser db1 ne
          let td := createSession ud.2 ud.1.id freshToken now
          (.success td.1 ud.1.email, td.2)

/- ===== POST /api/auth/logout (lines 216-220, behind authMiddleware) ===== -/

inductive LogoutOutcome
  | unauthorized
  | loggedOut
deriving DecidableEq

def logout (db : DB) (authHeader : Option String) (now : Nat) : LogoutOutcome × DB :=
  match bearerToken authHeader with
  | none => (.unauthorized, db)
  | some tok =>
      match getUserFromSession db tok now with
      | (none, db1) => (.unauthorized, db1)
      | (some _, db1) =>
          (.loggedOut, { db1 with sessions := db1.sessions.filter (fun r => !(r.token == tok)) })

/- ===== POST /api/pairings/register (lines 244-268) ===== -/

inductive RegisterOutcome
  | invalidInput
  | registered
deriving DecidableEq

/-- JS `name || null`: an absent or empty name is stored as NULL. -/
def storedName (name : Option String) : Option String :=
  match name with
  | some n => if n == "" then none else some n
  | none => none

def registerPairing (db : DB) (email gtoken : String) (name : Option String) :
    RegisterOutcome × DB :=
  if email == "" || gtoken == "" then (.invalidInput, db)
  else
    let ud := getOrCreateUser db email
    let db1 := ud.2
    if (db1.pairings.find? (fun p => p.gatewayToken == gtoken)).isSome then
      let updated := db1.pairings.map (fun p =>
        if p.gatewayToken == gtoken then { p with userId := ud.1.id, name := storedName name }
        else p)
      (.registered, { db1 with pairings := updated })
    else
      let row : PairingRow := ⟨db1.nextId, ud.1.id, gtoken, storedName name⟩
      (.registered, { db1 with pairings := db1.pairings ++ [row], nextId := db1.nextId + 1 })

def runRegisters (db : DB) (gtoken : String) (calls : List (String × Option String)) : DB :=
  calls.foldl (fun d c => (registerPairing d c.1 gtoken c.2).2) db

def countTok (db : DB) (gtoken : String) : Nat :=
  (db.pairings.filter (fun p => p.gatewayToken == gtoken)).length

/- ===== generateCode (lines 91-93) =====
`Math.floor(100000 + Math.random() * 900000).toString()`; the value of
`Math.random()`, a rational in [0,1), is a parameter.  For such inputs the
floor is nonnegative, so the decimal rendering of its `Nat` value embeds
JS `Number.prototype.toString`. -/

def generateCodeVal (q : ℚ) : ℤ := ⌊(100000 : ℚ) + q * 900000⌋

def digitChar (d : Nat) : Char := Char.ofNat (48 + d)

def natToDecimal (n : Nat) : String :=
  if n == 0 then "0" else String.mk ((Nat.digits 10 n).reverse.map digitChar)

def generateCode (q : ℚ) : String := natToDecimal (generateCodeVal q).toNat

/- ===== WebSocket broker (lines 285-393) =====
Sockets are identified by `Nat` ids.  The `liveConnections` map is an
association list; because an entry, once set, is never removed and never
replaced by a different object, the `connection` object captured by a
socket's `message`/`close` closures always coincides with the map entry
for its token, so a handler closure is represented by its (token, type)
pair.  `sent` logs every `socket.send` call as (destination, message). -/

structure LiveConnection where
  gatewayToken : String
  appSocket : Option Nat
  gatewaySocket : Option Nat
deriving DecidableEq

structure HandlerCtx where
  token : String
  clientType : String
deriving DecidableEq

inductive Msg
  | connected (clientType : String) (token : String)
  | appConnected
  | gatewayConnected
  | appDisconnected
  | gatewayDisconnected
  | relay (payload : String)
deriving DecidableEq

structure BrokerState where
  live : List (String × LiveConnection)
  handlers : List (Nat × HandlerCtx)
  closed : List Nat
  sent : List (Nat × Msg)
deriving DecidableEq

def initBroker : BrokerState := ⟨[], [], [], []⟩

def getLive (st : BrokerState) (token : String) : Option LiveConnection :=
  (st.live.find? (fun p => p.1 == token)).map (fun p => p.2)

def setAssoc (l : List (String × LiveConnection)) (token : String) (c : LiveConnection) :
    List (String × LiveConnection) :=
  if (l.find? (fun p => p.1 == token)).isSome then
    l.map (fun p => if p.1 == token then (token, c) else p)
  else l ++ [(token, c)]

def setLive (st : BrokerState) (token : String) (c : LiveConnection) : BrokerState :=
  { st with live := setAssoc st.live token c }

def isOpen (st : BrokerState) (ws : Nat) : Bool := !(st.closed.contains ws)

def send (st : BrokerState) (dest : Nat) (m : Msg) : BrokerState :=
  { st with sent := st.sent ++ [(dest, m)] }

inductive CloseReason
  | missingParams
  | sessionRequired
  | invalidSession
  | pairingNotOwned
  | pairingNotRegistered
deriving DecidableEq

/-- The numeric close codes 4000/4002/4003/4004/4005 of the source. -/
def closeCode : CloseReason → Nat
  | .missingParams => 4000
  | .sessionRequired => 4002
  | .invalidSession => 4003
  | .pairingNotOwned => 4004
  | .pairingNotRegistered => 4005

inductive ConnectOutcome
  | rejected (reason : CloseReason)
  | admitted
deriving DecidableEq

/-- JS falsiness of `url.searchParams.get(...)`: null or the empty string. -/
def falsy : Option String → Bool
  | none => true
  | some s => s == ""

/-- The `clientType === 'app'` admission checks (lines 308-329). -/
def appCheck (db : DB) (token : String) (session : Option String) (now : Nat) :
    Option CloseReason × DB :=
  if falsy session then (some .sessionRequired, db)
  else
    match getUserFromSession db (session.getD "") now with
    | (none, db1) => (some .invalidSession, db1)
    | (some u, db1) =>
        if (db1.pairings.find? (fun p => p.gatewayToken == token && p.userId == u.id)).isSome
        then (none, db1)
        else (some .pairingNotOwned, db1)

/-- The `clientType === 'gateway'` admission check (lines 332-338). -/
def gatewayCheck (db : DB) (token : String) : Option CloseReason :=
  if (db.pairings.find? (fun p => p.gatewayToken == token)).isSome then none
  else some .pairingNotRegistered

/-- Slot installation plus peer-connected notifications (lines 343-361). -/
def installSocket (st : BrokerState) (ws : Nat) (token clientType : String) : BrokerState :=
  let conn := (getLive st token).getD ⟨token, none, none⟩
  if clientType == "app" then
    let st1 := setLive st token { conn with appSocket := some ws }
    match conn.gatewaySocket with
    | some g => if isOpen st1 g then send (send st1 g .appConnected) ws .gatewayConnected else st1
    | none => st1
  else if clientType == "gateway" then
    let st1 := setLive st token { conn with gatewaySocket := some ws }
    match conn.appSocket with
    | some a => if isOpen st1 a then send (send st1 a .gatewayConnected) ws .appConnected else st1
    | none => st1
  else setLive st token conn

/-- `wss.on('connection')`: admission, installation, handler registration
and the final `connected` acknowledgment (lines 296-393). -/
def connect (db : DB) (st : BrokerState) (ws : Nat)
    (token clientType session : Option String) (now : Nat) :
    ConnectOutcome × BrokerState × DB :=
  if falsy token || falsy clientType then (.rejected .missingParams, st, db)
  else
    let tok := token.getD ""
    let ct := clientType.getD ""
    let cd := if ct == "app" then appCheck db tok session now else (none, db)
    match cd.1 with
    | some r => (.rejected r, st, cd.2)
    | none =>
        match (if ct == "gateway" then gatewayCheck cd.2 tok else none) with
        | some r => (.rejected r, st, cd.2)
        | none =>
            let st1 := installSocket st ws tok ct
            let st2 := { st1 with handlers := (ws, ⟨tok, ct⟩) :: st1.handlers }
            (.admitted, send st2 ws (.connected ct tok), cd.2)

/-- `ws.on('message')` relay (lines 364-377); `payload = none` models a
JSON parse failure (dropped).  A closed socket emits no message events. -/
def messageEvent (st : BrokerState) (ws : Nat) (payload : Option String) : BrokerState :=
  if !(isOpen st ws) then st
  else
    match st.handlers.find? (fun p => p.1 == ws) with
    | none => st
    | some pc =>
        match payload with
        | none => st
        | some pl =>
            match getLive st pc.2.token with
            | none => st
            | some conn =>
                let target := if pc.2.clientType == "app" then conn.gatewaySocket else conn.appSocket
                match target with
                | none => st
                | some t => if isOpen st t then send st t (.relay pl) else st

/-- `ws.on('close')` (lines 380-390): the slot for the departing socket's
declared type is cleared unconditionally, then the opposite slot (if any)
is notified. -/
def closeEvent (st : BrokerState) (ws : Nat) : BrokerState :=
  if !(isOpen st ws) then st
  else
    let st1 := { st with closed := ws :: st.closed }
    match st1.handlers.find? (fun p => p.1 == ws) with
    | none => st1
    | some pc =>
        match getLive st1 pc.2.token with
        | none => st1
        | some conn =>
            if pc.2.clientType == "app" then
              let st2 := setLive st1 pc.2.token { conn with appSocket := none }
              match conn.gatewaySocket with
              | some g => send st2 g .appDisconnected
              | none => st2
            else
              let st2 := setLive st1 pc.2.token { conn with gatewaySocket := none }
              match conn.appSocket with
              | some a => send st2 a .gatewayDisconnected
              | none => st2

inductive Event
  | connect (ws : Nat) (token clientType session : Option String) (now : Nat)
  | message (ws : Nat) (payload : Option String)
  | close (ws : Nat)

def step : DB × BrokerState → Event → DB × BrokerState
  | (db, st), .connect ws t ct s now =>
      let r := connect db st ws t ct s now
      (r.2.2, r.2.1)
  | (db, st), .message ws p => (db, messageEvent st ws p)
  | (db, st), .close ws => (db, closeEvent st ws)

def run (p : DB × BrokerState) (es : List Event) : DB × BrokerState := es.foldl step p

/- ===== Concrete demonstration state ===== -/

def demoUser : UserRow := ⟨1, "a@b.c"⟩

def demoDB : DB :=
  { users := [demoUser]
    codes := []
    sessions := [⟨2, 1, "sess_demo", 1000⟩]
    pairings := [⟨3, 1, "tok1", none⟩]
    nextId := 4 }

def emptyDB : DB := { users := [], codes := [], sessions := [], pairings := [], nextId := 1 }

/-- A session issued at time 0, hence expiring at exactly `sessionLifetimeMs`. -/
def dbBoundary : DB :=
  { users := [⟨1, "a@b.c"⟩]
    codes := []
    sessions := [⟨2, 1, "tk", sessionLifetimeMs⟩]
    pairings := []
    nextId := 3 }

/-- One verification code for a@b.c issued at 0, expiring at 600000. -/
def dbOneCode : DB :=
  { users := []
    codes := [⟨1, "a@b.c", "123456", 600000, false, 0⟩]
    sessions := []
    pairings := []
    nextId := 2 }

/-- Broker state in which socket 1 (role app, token t) has been superseded:
the app slot now holds socket 2, yet socket 1 is still open with its close
handler attached. -/
def stSuperseded : BrokerState :=
  ⟨[("t", ⟨"t", some 2, none⟩)], [(1, ⟨"t", "app"⟩)], [], []⟩

/-- Broker state in which both slots of token t have been superseded: the
app slot holds socket 3 (socket 2 was replaced) and the gateway slot holds
socket 4 (socket 1 was replaced); the superseded sockets 2 and 1 are still
open with their handlers attached. -/
def stReplaced : BrokerState :=
  ⟨[("t", ⟨"t", some 3, some 4⟩)],
   [(2, ⟨"t", "app"⟩), (3, ⟨"t", "app"⟩), (1, ⟨"t", "gateway"⟩), (4, ⟨"t", "gateway"⟩)],
   [], []⟩

/- ===== Helper lemmas ===== -/

theorem find?_filter_not {α : Type} (l : List α) (p : α → Bool) :
    (l.filter (fun r => !(p r))).find? p = none := by
  induction l with
  | nil => rfl
  | cons a t ih =>
      by_cases h : p a
      · simp [List.filter_cons, h, ih]
      · simp [List.filter_cons, h, List.find?_cons, ih]

/- ===== Claim C4 ===== -/

/-- Claim C4 (amended): a session issued at time T carries expiry T+30
days; `getUserFromSession` accepts the token at every `now ≤ T+30d`
(including the boundary instant itself) and rejects strictly after; on the
rejecting lookup the session row is deleted, and every subsequent use of
the same token fails identically with no further state change. -/
theorem c4_session_expiry (db : DB) (tok : String) (s : SessionRow) (u : UserRow)
    (issuedAt now : Nat)
    (hs : db.sessions.find? (fun r => r.token == tok) = some s)
    (hu : db.users.find? (fun x => x.id == s.userId) = some u)
    (hexp : s.expiresAt = issuedAt + sessionLifetimeMs) :
    (now ≤ issuedAt + sessionLifetimeMs → getUserFromSession db tok now = (some u, db))
    ∧ (issuedAt + sessionLifetimeMs < now →
        (getUserFromSession db tok now).1 = none
        ∧ ((getUserFromSession db tok now).2.sessions.find? (fun r => r.token == tok) = none)
        ∧ ∀ n2, getUserFromSession (getUserFromSession db tok now).2 tok n2
            = (none, (getUserFromSession db tok now).2)) := by
  constructor
  · intro h
    simp only [getUserFromSession, hs, hu]
    rw [if_neg (by omega : ¬ s.expiresAt < now)]
  · intro h
    have hlt : s.expiresAt < now := by omega
    simp only [getUserFromSession, hs, hu, if_pos hlt]
    refine ⟨?_, ?_, ?_⟩
    · trivial
    · exact find?_filter_not _ _
    · intro n2
      simp only [getUserFromSession, find?_filter_not]

/-- Witness for C4 at a concrete session. -/
theorem c4_session_expiry_witness :
    (0 + sessionLifetimeMs ≤ 0 + sessionLifetimeMs →
      getUserFromSession dbBoundary ("tk") (0 + sessionLifetimeMs) = (some ⟨1, "a@b.c"⟩, dbBoundary))
    ∧ (0 + sessionLifetimeMs < 0 + sessionLifetimeMs →
        (getUserFromSession dbBoundary ("tk") (0 + sessionLifetimeMs)).1 = none
        ∧ ((getUserFromSession dbBoundary ("tk") (0 + sessionLifetimeMs)).2.sessions.find?
            (fun r => r.token == ("tk")) = none)
        ∧ ∀ n2, getUserFromSession (getUserFromSession dbBoundary ("tk") (0 + sessionLifetimeMs)).2 ("tk") n2
            = (none, (getUserFromSession dbBoundary ("tk") (0 + sessionLifetimeMs)).2)) :=
  c4_session_expiry dbBoundary ("tk") ⟨2, 1, "tk", sessionLifetimeMs⟩ ⟨1, "a@b.c"⟩ 0
    (0 + sessionLifetimeMs) (by decide) (by decide) (by decide)

/-- Claim C4 counterexample: the claim says the token is rejected at
exactly T+30 days, but at that instant `expires_at < now` is false and the
lookup succeeds. -/
theorem c4_counterexample :
    (getUserFromSession dbBoundary ("tk") sessionLifetimeMs).1 = some ⟨1, "a@b.c"⟩ := by decide

/- ===== Claim C5 ===== -/

/-- Claim C5 (amended): for a bearer token that resolves to a live session
the logout route deletes the session and succeeds; but the route is
guarded by the auth middleware, so a bearer token with no matching session
(already logged out or expired-and-deleted) is rejected with Unauthorized
rather than succeeding idempotently. -/
theorem c5_logout (db : DB) (h : Option String) (tok : String) (s : SessionRow) (u : UserRow)
    (now : Nat)
    (hb : bearerToken h = some tok)
    (hs : db.sessions.find? (fun r => r.token == tok) = some s)
    (hu : db.users.find? (fun x => x.id == s.userId) = some u)
    (hexp : ¬ s.expiresAt < now) :
    logout db h now
      = (.loggedOut, { db with sessions := db.sessions.filter (fun r => !(r.token == tok)) })
    ∧ ∀ db2 : DB, db2.sessions.find? (fun r => r.token == tok) = none →
        logout db2 h now = (.unauthorized, db2) := by
  constructor
  · simp only [logout, hb, getUserFromSession, hs, hu, if_neg hexp]
  · intro db2 h2
    simp only [logout, hb, getUserFromSession, h2]

/-- Witness for C5 at a concrete database. -/
theorem c5_logout_witness :
    logout dbBoundary (some ("Bearer tk")) 0
      = (.loggedOut, { dbBoundary with
          sessions := dbBoundary.sessions.filter (fun r => !(r.token == ("tk"))) })
    ∧ ∀ db2 : DB, db2.sessions.find? (fun r => r.token == ("tk")) = none →
        logout db2 (some ("Bearer tk")) 0 = (.unauthorized, db2) :=
  c5_logout dbBoundary (some ("Bearer tk")) ("tk") ⟨2, 1, "tk", sessionLifetimeMs⟩
    ⟨1, "a@b.c"⟩ 0 (by decide) (by decide) (by decide) (by decide)

/-- Claim C5 counterexample: calling Logout with a token that has no
matching session returns Unauthorized, contradicting "is not an error and
never returns a failure". -/
theorem c5_counterexample :
    logout emptyDB (some ("Bearer sess_x")) 0 = (.unauthorized, emptyDB) := by decide

/- ===== Claim C7 ===== -/

/-- Claim C7: when the matched verification code's 10-minute expiry has
passed (now strictly after `expires_at`), VerifyCode fails with
CodeExpired and the database is unchanged — in particular the code's
`used` flag is never set by the failing attempt. -/
theorem c7_expired_code (db : DB) (email code : String) (v : CodeRow) (now : Nat) (ft : String)
    (he : email ≠ "") (hc : code ≠ "")
    (hm : latestMatch db.codes (normalizeEmail email) code = some v)
    (hexp : v.expiresAt < now) :
    verifyCode db email code now ft = (.codeExpired, db) := by
  have h1 : (email == "" || code == "") = false := by simp [he, hc]
  simp only [verifyCode, h1, Bool.false_eq_true, if_false, hm, if_pos hexp]

/-- Witness for C7: the code of `dbOneCode` expires at 600000 and is
verified at 600001. -/
theorem c7_expired_code_witness :
    verifyCode dbOneCode ("a@b.c") ("123456") 600001 ("sess_new") = (.codeExpired, dbOneCode) :=
  c7_expired_code dbOneCode ("a@b.c") ("123456") ⟨1, "a@b.c", "123456", 600000, false, 0⟩
    600001 ("sess_new") (by decide) (by decide) (by decide) (by decide)

/- ===== Claim C10 ===== -/

/-- Claim C10: Register applies no address-shape validation: a non-empty
email with no at-sign (paired with a non-empty gateway token) is accepted,
and an Account row is created for the lowercased, trimmed string; the same
email is rejected as InvalidInput by RequestCode. -/
theorem c10_register_shape (db : DB) (email gtoken : String) (name : Option String)
    (he : email ≠ "") (hg : gtoken ≠ "") (hat : containsAt email = false)
    (hnew : db.users.find? (fun x => x.email == normalizeEmail email) = none) :
    (registerPairing db email gtoken name).1 = .registered
    ∧ (registerPairing db email gtoken name).2.users
        = db.users ++ [⟨db.nextId, normalizeEmail email⟩]
    ∧ ∀ code now d, (requestCode db email code now d).1 = .invalidInput := by
  have h1 : (email == "" || gtoken == "") = false := by simp [he, hg]
  have h2 : (email == "") = false := by simp [he]
  refine ⟨?_, ?_, ?_⟩
  · simp only [registerPairing, h1, Bool.false_eq_true, if_false, getOrCreateUser, hnew]
    split <;> rfl
  · simp only [registerPairing, h1, Bool.false_eq_true, if_false, getOrCreateUser, hnew]
    split <;> rfl
  · intro code now d
    simp only [requestCode, h2, hat, Bool.not_false, Bool.false_or, if_true]

/-- Witness for C10 with the at-sign-free email NoAt. -/
theorem c10_register_shape_witness :
    (registerPairing emptyDB ("NoAt") ("g1") none).1 = .registered
    ∧ (registerPairing emptyDB ("NoAt") ("g1") none).2.users
        = emptyDB.users ++ [⟨emptyDB.nextId, normalizeEmail ("NoAt")⟩]
    ∧ ∀ code now d, (requestCode emptyDB ("NoAt") code now d).1 = .invalidInput :=
  c10_register_shape emptyDB ("NoAt") ("g1") none (by decide) (by decide) (by decide) (by decide)

/- ===== Claim C6 ===== -/

theorem codeMatches_mark (ne code : String) (id : Nat) (r : CodeRow) :
    codeMatches ne code (if r.id == id then { r with used := true } else r)
      = (codeMatches ne code r && !(r.id == id)) := by
  by_cases h : r.id = id
  · simp [codeMatches, h]
  · simp [codeMatches, h]

theorem filter_markUsed_of_nil (t : List CodeRow) (ne code : String) (id : Nat)
    (h : t.filter (codeMatches ne code) = []) :
    (markUsed t id).filter (codeMatches ne code) = [] := by
  induction t with
  | nil => rfl
  | cons a t ih =>
      rw [List.filter_cons] at h
      by_cases ha : codeMatches ne code a = true
      · rw [if_pos ha] at h
        exact absurd h (List.cons_ne_nil _ _)
      · rw [if_neg ha] at h
        have hm : codeMatches ne code (if a.id == id then { a with used := true } else a) = false := by
          rw [codeMatches_mark]
          simp only [Bool.not_eq_true] at ha
          simp [ha]
        simp only [markUsed, List.map_cons, List.filter_cons, hm, Bool.false_eq_true, if_false]
        exact ih h

theorem filter_markUsed_nil (l : List CodeRow) (ne code : String) (v : CodeRow)
    (h : l.filter (codeMatches ne code) = [v]) :
    (markUsed l v.id).filter (codeMatches ne code) = [] := by
  induction l with
  | nil => simp at h
  | cons a t ih =>
      rw [List.filter_cons] at h
      by_cases ha : codeMatches ne code a = true
      · rw [if_pos ha] at h
        have hav : a = v ∧ t.filter (codeMatches ne code) = [] := by
          constructor
          · exact (List.cons_eq_cons.mp h).1
          · exact (List.cons_eq_cons.mp h).2
        obtain ⟨rfl, ht⟩ := hav
        have hm : codeMatches ne code (if a.id == a.id then { a with used := true } else a) = false := by
          rw [codeMatches_mark]
          simp
        simp only [markUsed, List.map_cons, List.filter_cons, hm, Bool.false_eq_true, if_false]
        exact filter_markUsed_of_nil t ne code a.id ht
      · rw [if_neg ha] at h
        have hm : codeMatches ne code (if a.id == v.id then { a with used := true } else a) = false := by
          rw [codeMatches_mark]
          simp only [Bool.not_eq_true] at ha
          simp [ha]
        simp only [markUsed, List.map_cons, List.filter_cons, hm, Bool.false_eq_true, if_false]
        exact ih h

theorem latestMatch_of_filter_single (rows : List CodeRow) (ne code : String) (v : CodeRow)
    (h : rows.filter (codeMatches ne code) = [v]) :
    latestMatch rows ne code = some v := by
  unfold latestMatch
  rw [h]
  rfl

theorem latestMatch_of_filter_nil (rows : List CodeRow) (ne code : String)
    (h : rows.filter (codeMatches ne code) = []) :
    latestMatch rows ne code = none := by
  unfold latestMatch
  rw [h]
  rfl

theorem getOrCreateUser_codes (db : DB) (email : String) :
    (getOrCreateUser db email).2.codes = db.codes := by
  rcases h : db.users.find? (fun u => u.email == normalizeEmail email) with _ | u
  · simp [getOrCreateUser, h]
  · simp [getOrCreateUser, h]

theorem verify_invalidCode (d : DB) (email code : String) (now : Nat) (ft : String)
    (he : email ≠ "") (hc : code ≠ "")
    (h : latestMatch d.codes (normalizeEmail email) code = none) :
    verifyCode d email code now ft = (.invalidCode, d) := by
  have h1 : (email == "" || code == "") = false := by simp [he, hc]
  simp only [verifyCode, h1, Bool.false_eq_true, if_false, h]

/-- Claim C6: starting from a state whose only unused matching row for
(email, code) is the single row v, an unexpired first VerifyCode succeeds
and consumes v (no unused matching row remains), and a second VerifyCode
with the same code fails with InvalidCode and changes nothing. -/
theorem c6_verify_consumes (db : DB) (email code : String) (v : CodeRow) (now now2 : Nat)
    (ft ft2 : String)
    (he : email ≠ "") (hc : code ≠ "")
    (hone : db.codes.filter (codeMatches (normalizeEmail email) code) = [v])
    (hexp : ¬ v.expiresAt < now) :
    (∃ e, (verifyCode db email code now ft).1 = .success ft e)
    ∧ (verifyCode db email code now ft).2.codes.filter
        (codeMatches (normalizeEmail email) code) = []
    ∧ verifyCode (verifyCode db email code now ft).2 email code now2 ft2
        = (.invalidCode, (verifyCode db email code now ft).2) := by
  have h1 : (email == "" || code == "") = false := by simp [he, hc]
  have hm := latestMatch_of_filter_single db.codes (normalizeEmail email) code v hone
  have hnil := filter_markUsed_nil db.codes (normalizeEmail email) code v hone
  have hcodes : (verifyCode db email code now ft).2.codes = markUsed db.codes v.id := by
    simp only [verifyCode, h1, Bool.false_eq_true, if_false, hm, if_neg hexp]
    simp [createSession, getOrCreateUser_codes]
  refine ⟨?_, ?_, ?_⟩
  · simp only [verifyCode, h1, Bool.false_eq_true, if_false, hm, if_neg hexp]
    exact ⟨_, rfl⟩
  · rw [hcodes]
    exact hnil
  · have hl2 : latestMatch (verifyCode db email code now ft).2.codes
        (normalizeEmail email) code = none := by
      apply latestMatch_of_filter_nil
      rw [hcodes]
      exact hnil
    exact verify_invalidCode _ email code now2 ft2 he hc hl2

/-- Witness for C6 on the one-code database. -/
theorem c6_verify_consumes_witness :
    (∃ e, (verifyCode dbOneCode ("a@b.c") ("123456") 5 ("s1")).1 = .success ("s1") e)
    ∧ (verifyCode dbOneCode ("a@b.c") ("123456") 5 ("s1")).2.codes.filter
        (codeMatches (normalizeEmail ("a@b.c")) ("123456")) = []
    ∧ verifyCode (verifyCode dbOneCode ("a@b.c") ("123456") 5 ("s1")).2
        ("a@b.c") ("123456") 6 ("s2")
        = (.invalidCode, (verifyCode dbOneCode ("a@b.c") ("123456") 5 ("s1")).2) :=
  c6_verify_consumes dbOneCode ("a@b.c") ("123456") ⟨1, "a@b.c", "123456", 600000, false, 0⟩
    5 6 ("s1") ("s2") (by decide) (by decide) (by decide) (by decide)

/- ===== Claim C8 ===== -/

theorem find?_ext {α : Type} (p q : α → Bool) (l : List α) (h : ∀ x, p x = q x) :
    l.find? p = l.find? q := by
  induction l with
  | nil => rfl
  | cons a t ih => simp only [List.find?_cons, h a, ih]

theorem getOrCreateUser_pairings (db : DB) (email : String) :
    (getOrCreateUser db email).2.pairings = db.pairings := by
  rcases h : db.users.find? (fun u => u.email == normalizeEmail email) with _ | u <;>
    simp [getOrCreateUser, h]

theorem getOrCreateUser_found (db : DB) (email : String) :
    (getOrCreateUser db email).2.users.find? (fun x => x.email == normalizeEmail email)
      = some (getOrCreateUser db email).1 := by
  rcases h : db.users.find? (fun u => u.email == normalizeEmail email) with _ | u
  · simp [getOrCreateUser, h, List.find?_append]
  · simp [getOrCreateUser, h]

/-- One `Register` call: afterwards exactly one row for the gateway token
exists and it is owned by the account found under the call's normalized
email. -/
theorem register_step (db : DB) (email gtoken : String) (name : Option String)
    (he : email ≠ "") (hg : gtoken ≠ "") (hle : countTok db gtoken ≤ 1) :
    countTok (registerPairing db email gtoken name).2 gtoken = 1
    ∧ ∃ row u,
        (registerPairing db email gtoken name).2.pairings.find?
          (fun p => p.gatewayToken == gtoken) = some row
        ∧ (registerPairing db email gtoken name).2.users.find?
            (fun x => x.email == normalizeEmail email) = some u
        ∧ row.userId = u.id := by
  have h1 : (email == "" || gtoken == "") = false := by simp [he, hg]
  have hpair := getOrCreateUser_pairings db email
  have hfound := getOrCreateUser_found db email
  by_cases hex : ((getOrCreateUser db email).2.pairings.find?
      (fun p => p.gatewayToken == gtoken)).isSome = true
  · have hred : (registerPairing db email gtoken name).2
        = { (getOrCreateUser db email).2 with
            pairings := (getOrCreateUser db email).2.pairings.map (fun p =>
              if p.gatewayToken == gtoken then
                { p with userId := (getOrCreateUser db email).1.id, name := storedName name }
              else p) } := by
      simp only [registerPairing, h1, Bool.false_eq_true, if_false, hex, if_true]
    have hcomp : ∀ p : PairingRow,
        ((if p.gatewayToken == gtoken then
            { p with userId := (getOrCreateUser db email).1.id, name := storedName name }
          else p).gatewayToken == gtoken) = (p.gatewayToken == gtoken) := by
      intro p
      by_cases hp : p.gatewayToken == gtoken
      · rw [if_pos hp]
      · rw [if_neg hp]
    obtain ⟨p0, hp0⟩ := Option.isSome_iff_exists.mp hex
    rw [hpair] at hp0
    have hp0P := List.find?_some hp0
    have hp0mem : p0 ∈ db.pairings := List.mem_of_find?_eq_some hp0
    have hcount1 : countTok db gtoken = 1 := by
      have : 0 < countTok db gtoken := by
        unfold countTok
        apply List.length_pos_of_mem (a := p0)
        exact List.mem_filter.mpr ⟨hp0mem, hp0P⟩
      omega
    constructor
    · rw [hred]
      unfold countTok
      rw [List.filter_map]
      rw [List.length_map]
      have heq : List.filter ((fun x => x.gatewayToken == gtoken) ∘ (fun p =>
          if p.gatewayToken == gtoken then
            { p with userId := (getOrCreateUser db email).1.id, name := storedName name }
          else p)) (getOrCreateUser db email).2.pairings
          = List.filter (fun x => x.gatewayToken == gtoken) (getOrCreateUser db email).2.pairings := by
        apply List.filter_congr
        intro p _
        exact hcomp p
      rw [heq, hpair]
      exact hcount1
    · refine ⟨{ p0 with userId := (getOrCreateUser db email).1.id, name := storedName name },
        (getOrCreateUser db email).1, ?_, ?_, rfl⟩
      · rw [hred]
        show ((getOrCreateUser db email).2.pairings.map _).find? _ = _
        rw [List.find?_map]
        have heq2 : (getOrCreateUser db email).2.pairings.find? ((fun x => x.gatewayToken == gtoken) ∘ (fun p =>
            if p.gatewayToken == gtoken then
              { p with userId := (getOrCreateUser db email).1.id, name := storedName name }
            else p))
            = (getOrCreateUser db email).2.pairings.find? (fun x => x.gatewayToken == gtoken) := by
          apply find?_ext
          intro x
          exact hcomp x
        rw [heq2, hpair, hp0]
        simp [hp0P]
        intro hcontra
        exact absurd (by simpa using hp0P) hcontra
      · rw [hred]
        exact hfound
  · have hexf : ((getOrCreateUser db email).2.pairings.find?
        (fun p => p.gatewayToken == gtoken)).isSome = false := by
      simpa using hex
    have hred : (registerPairing db email gtoken name).2
        = { (getOrCreateUser db email).2 with
            pairings := (getOrCreateUser db email).2.pairings
              ++ [⟨(getOrCreateUser db email).2.nextId, (getOrCreateUser db email).1.id,
                   gtoken, storedName name⟩],
            nextId := (getOrCreateUser db email).2.nextId + 1 } := by
      simp only [registerPairing, h1, Bool.false_eq_true, if_false, hexf]
    have hnone : (getOrCreateUser db email).2.pairings.find?
        (fun p => p.gatewayToken == gtoken) = none := by
      rcases hr : (getOrCreateUser db email).2.pairings.find? (fun p => p.gatewayToken == gtoken) with _ | x
      · exact hr
      · rw [hr] at hexf; simp at hexf
    have hfil : (getOrCreateUser db email).2.pairings.filter
        (fun p => p.gatewayToken == gtoken) = [] := by
      rw [List.filter_eq_nil_iff]
      intro a ha
      exact List.find?_eq_none.mp hnone a ha
    constructor
    · rw [hred]
      unfold countTok
      rw [List.filter_append, hfil]
      simp
    · refine ⟨⟨(getOrCreateUser db email).2.nextId, (getOrCreateUser db email).1.id,
        gtoken, storedName name⟩, (getOrCreateUser db email).1, ?_, ?_, rfl⟩
      · rw [hred]
        show ((getOrCreateUser db email).2.pairings ++ _).find? _ = _
        rw [List.find?_append, hnone]
        simp
      · rw [hred]
        exact hfound

/-- Claim C8: registration is idempotent keyed by the gateway token: after
any non-empty sequence of Register calls for one token (emails may vary),
exactly one Pairing row for that token exists, owned by the account of the
most recent call's email. -/
theorem c8_register_keyed (gtoken : String) (hg : gtoken ≠ "")
    (calls : List (String × Option String)) :
    ∀ (lastCall : String × Option String) (db : DB),
      calls.getLast? = some lastCall →
      (∀ c ∈ calls, c.1 ≠ "") →
      countTok db gtoken ≤ 1 →
      countTok (runRegisters db gtoken calls) gtoken = 1
      ∧ ∃ row u,
          (runRegisters db gtoken calls).pairings.find? (fun p => p.gatewayToken == gtoken)
            = some row
          ∧ (runRegisters db gtoken calls).users.find?
              (fun x => x.email == normalizeEmail lastCall.1) = some u
          ∧ row.userId = u.id := by
  induction calls with
  | nil =>
      intro lastCall db hlast _ _
      simp at hlast
  | cons c rest ih =>
      intro lastCall db hlast hemails hle
      have hstep := register_step db c.1 gtoken c.2 (hemails c (List.mem_cons_self c rest)) hg hle
      cases rest with
      | nil =>
          have hc : c = lastCall := by simpa using hlast
          subst hc
          simpa [runRegisters] using hstep
      | cons d t =>
          have hlast2 : (d :: t).getLast? = some lastCall := by
            rw [List.getLast?_cons_cons] at hlast
            exact hlast
          have hemails2 : ∀ x ∈ d :: t, x.1 ≠ "" :=
            fun x hx => hemails x (List.mem_cons_of_mem c hx)
          have hle2 : countTok (registerPairing db c.1 gtoken c.2).2 gtoken ≤ 1 :=
            le_of_eq hstep.1
          exact ih lastCall (registerPairing db c.1 gtoken c.2).2 hlast2 hemails2 hle2

/-- Witness for C8: the same token registered under two different emails. -/
theorem c8_register_keyed_witness :
    countTok (runRegisters emptyDB ("g1") [(("A@x"), none), (("b@y"), some ("n"))]) ("g1") = 1
    ∧ ∃ row u,
        (runRegisters emptyDB ("g1") [(("A@x"), none), (("b@y"), some ("n"))]).pairings.find?
            (fun p => p.gatewayToken == ("g1")) = some row
        ∧ (runRegisters emptyDB ("g1") [(("A@x"), none), (("b@y"), some ("n"))]).users.find?
            (fun x => x.email == normalizeEmail ("b@y")) = some u
        ∧ row.userId = u.id :=
  c8_register_keyed ("g1") (by decide) [(("A@x"), none), (("b@y"), some ("n"))]
    (("b@y"), some ("n")) emptyDB (by decide) (by decide) (by decide)

/- ===== Claim C3 ===== -/

theorem connect_app_red (db : DB) (st : BrokerState) (ws now : Nat) (token : String)
    (session : Option String) (ht : token ≠ "") :
    connect db st ws (some token) (some ("app")) session now
      = (match (appCheck db token session now).1 with
         | some r => (.rejected r, st, (appCheck db token session now).2)
         | none =>
             (.admitted,
              send { installSocket st ws token ("app") with
                     handlers := (ws, ⟨token, "app"⟩)
                       :: (installSocket st ws token ("app")).handlers }
                ws (.connected ("app") token),
              (appCheck db token session now).2)) := by
  have h0 : (falsy (some token) || falsy (some ("app"))) = false := by simp [falsy, ht]
  simp only [connect, h0, Bool.false_eq_true, if_false, Option.getD_some]
  rcases ho : (appCheck db token session now).1 with _ | r <;> simp [ho]

/-- Claim C3: a role=app connection is admitted exactly when a session
token is supplied, it resolves to an account, and the pairing token is
owned by that account; each of the three failures rejects with its own
close reason (4002, 4003, 4004 — pairwise distinct), and on any rejection
the broker state is untouched: the socket enters no slot and gets no
handler, so nothing is ever relayed for it. -/
theorem c3_app_admission (db : DB) (st : BrokerState) (ws now : Nat)
    (token : String) (session : Option String) (ht : token ≠ "") :
    (falsy session = true →
      (connect db st ws (some token) (some ("app")) session now).1
        = .rejected .sessionRequired)
    ∧ (∀ s, session = some s → s ≠ "" →
        (getUserFromSession db s now).1 = none →
        (connect db st ws (some token) (some ("app")) session now).1
          = .rejected .invalidSession)
    ∧ (∀ s u, session = some s → s ≠ "" →
        (getUserFromSession db s now).1 = some u →
        ((getUserFromSession db s now).2.pairings.find?
          (fun p => p.gatewayToken == token && p.userId == u.id)) = none →
        (connect db st ws (some token) (some ("app")) session now).1
          = .rejected .pairingNotOwned)
    ∧ (∀ s u, session = some s → s ≠ "" →
        (getUserFromSession db s now).1 = some u →
        ((getUserFromSession db s now).2.pairings.find?
          (fun p => p.gatewayToken == token && p.userId == u.id)).isSome = true →
        (connect db st ws (some token) (some ("app")) session now).1 = .admitted)
    ∧ ((connect db st ws (some token) (some ("app")) session now).1 = .admitted →
        ∃ s u, session = some s ∧ s ≠ ""
          ∧ (getUserFromSession db s now).1 = some u
          ∧ ((getUserFromSession db s now).2.pairings.find?
              (fun p => p.gatewayToken == token && p.userId == u.id)).isSome = true)
    ∧ (∀ r, (connect db st ws (some token) (some ("app")) session now).1 = .rejected r →
        (connect db st ws (some token) (some ("app")) session now).2.1 = st)
    ∧ closeCode .sessionRequired ≠ closeCode .invalidSession
    ∧ closeCode .sessionRequired ≠ closeCode .pairingNotOwned
    ∧ closeCode .invalidSession ≠ closeCode .pairingNotOwned := by
  rw [connect_app_red db st ws now token session ht]
  refine ⟨?_, ?_, ?_, ?_, ?_, ?_, by decide, by decide, by decide⟩
  · intro hf
    have ha : appCheck db token session now = (some .sessionRequired, db) := by
      simp [appCheck, hf]
    rw [ha]
  · intro s hs hsne hgu
    subst hs
    have hfs : falsy (some s) = false := by simp [falsy, hsne]
    rcases hg : getUserFromSession db s now with ⟨o, db1⟩
    rw [hg] at hgu
    simp only at hgu
    subst hgu
    have ha : appCheck db token (some s) now = (some .invalidSession, db1) := by
      simp [appCheck, hfs, hg]
    rw [ha]
  · intro s u hs hsne hgu hpf
    subst hs
    have hfs : falsy (some s) = false := by simp [falsy, hsne]
    rcases hg : getUserFromSession db s now with ⟨o, db1⟩
    rw [hg] at hgu hpf
    simp only at hgu hpf
    subst hgu
    have ha : appCheck db token (some s) now = (some .pairingNotOwned, db1) := by
      simp [appCheck, hfs, hg, hpf]
    rw [ha]
  · intro s u hs hsne hgu hpt
    subst hs
    have hfs : falsy (some s) = false := by simp [falsy, hsne]
    rcases hg : getUserFromSession db s now with ⟨o, db1⟩
    rw [hg] at hgu hpt
    simp only at hgu hpt
    subst hgu
    have ha : (appCheck db token (some s) now).1 = none := by
      simp [appCheck, hfs, hg, hpt]
    rw [ha]
  · intro hadm
    rcases session with _ | s
    · have ha : appCheck db token none now = (some .sessionRequired, db) := by
        simp [appCheck, falsy]
      rw [ha] at hadm
      simp at hadm
    · by_cases hsne : s = ""
      · subst hsne
        have ha : appCheck db token (some ("")) now = (some .sessionRequired, db) := by
          simp [appCheck, falsy]
        rw [ha] at hadm
        simp at hadm
      · have hfs : falsy (some s) = false := by simp [falsy, hsne]
        rcases hg : getUserFromSession db s now with ⟨o, db1⟩
        rcases o with _ | u
        · have ha : appCheck db token (some s) now = (some .invalidSession, db1) := by
            simp [appCheck, hfs, hg]
          rw [ha] at hadm
          simp at hadm
        · rcases hpf : (db1.pairings.find?
              (fun p => p.gatewayToken == token && p.userId == u.id)).isSome with _ | _
          · have ha : appCheck db token (some s) now = (some .pairingNotOwned, db1) := by
              simp [appCheck, hfs, hg, hpf]
            rw [ha] at hadm
            simp at hadm
          · exact ⟨s, u, rfl, hsne, by rw [hg], by rw [hg]; exact hpf⟩
  · intro r hr
    rcases ha : (appCheck db token session now).1 with _ | r2
    · rw [ha] at hr
      simp at hr
    · simp only [ha]

/-- Witness for C3 on the demo database. -/
theorem c3_app_admission_witness :
    (falsy (some ("sess_demo")) = true →
      (connect demoDB initBroker 7 (some ("tok1")) (some ("app")) (some ("sess_demo")) 0).1
        = .rejected .sessionRequired)
    ∧ (∀ s, (some ("sess_demo") : Option String) = some s → s ≠ "" →
        (getUserFromSession demoDB s 0).1 = none →
        (connect demoDB initBroker 7 (some ("tok1")) (some ("app")) (some ("sess_demo")) 0).1
          = .rejected .invalidSession)
    ∧ (∀ s u, (some ("sess_demo") : Option String) = some s → s ≠ "" →
        (getUserFromSession demoDB s 0).1 = some u →
        ((getUserFromSession demoDB s 0).2.pairings.find?
          (fun p => p.gatewayToken == ("tok1") && p.userId == u.id)) = none →
        (connect demoDB initBroker 7 (some ("tok1")) (some ("app")) (some ("sess_demo")) 0).1
          = .rejected .pairingNotOwned)
    ∧ (∀ s u, (some ("sess_demo") : Option String) = some s → s ≠ "" →
        (getUserFromSession demoDB s 0).1 = some u →
        ((getUserFromSession demoDB s 0).2.pairings.find?
          (fun p => p.gatewayToken == ("tok1") && p.userId == u.id)).isSome = true →
        (connect demoDB initBroker 7 (some ("tok1")) (some ("app")) (some ("sess_demo")) 0).1
          = .admitted)
    ∧ ((connect demoDB initBroker 7 (some ("tok1")) (some ("app")) (some ("sess_demo")) 0).1
          = .admitted →
        ∃ s u, (some ("sess_demo") : Option String) = some s ∧ s ≠ ""
          ∧ (getUserFromSession demoDB s 0).1 = some u
          ∧ ((getUserFromSession demoDB s 0).2.pairings.find?
              (fun p => p.gatewayToken == ("tok1") && p.userId == u.id)).isSome = true)
    ∧ (∀ r, (connect demoDB initBroker 7 (some ("tok1")) (some ("app")) (some ("sess_demo")) 0).1
          = .rejected r →
        (connect demoDB initBroker 7 (some ("tok1")) (some ("app")) (some ("sess_demo")) 0).2.1
          = initBroker)
    ∧ closeCode .sessionRequired ≠ closeCode .invalidSession
    ∧ closeCode .sessionRequired ≠ closeCode .pairingNotOwned
    ∧ closeCode .invalidSession ≠ closeCode .pairingNotOwned :=
  c3_app_admission demoDB initBroker 7 0 ("tok1") (some ("sess_demo")) (by decide)

/- ===== Claims C1 and C2 ===== -/

theorem find?_setAssoc (l : List (String × LiveConnection)) (token : String) (c : LiveConnection) :
    (setAssoc l token c).find? (fun p => p.1 == token) = some (token, c) := by
  induction l with
  | nil => simp [setAssoc, List.find?_cons]
  | cons a t ih =>
      by_cases h : (a.1 == token) = true
      · have hp : a.1 = token := by simpa using h
        have hf : ((a :: t).find? (fun p => p.1 == token)).isSome = true := by
          simp [List.find?_cons, h]
        simp [setAssoc, hf, List.find?_cons, h, hp]
      · have hb : (a.1 == token) = false := Bool.eq_false_iff.mpr h
        have hfc : (a :: t).find? (fun p => p.1 == token) = t.find? (fun p => p.1 == token) := by
          simp [List.find?_cons, hb]
        have hsa : setAssoc (a :: t) token c = a :: setAssoc t token c := by
          by_cases hs : ((t.find? (fun p => p.1 == token)).isSome) = true
          · simp only [setAssoc, hfc, hs, if_true, List.map_cons, hb, Bool.false_eq_true, if_false]
          · have hs2 : ((t.find? (fun p => p.1 == token)).isSome) = false := Bool.eq_false_iff.mpr hs
            simp only [setAssoc, hfc, hs2, Bool.false_eq_true, if_false, List.cons_append]
        rw [hsa]
        simp only [List.find?_cons, hb]
        exact ih

theorem getLive_setLive (st : BrokerState) (token : String) (c : LiveConnection) :
    getLive (setLive st token c) token = some c := by
  simp [getLive, setLive, find?_setAssoc]

/-- Claim C1 (amended): when a socket of either declared role disconnects,
the close handler clears the slot for that role unconditionally — even
when a different (newer) socket is the current occupant of that slot, the
slot ends up empty; no still-installed check is performed for either the
app or the gateway role. -/
theorem c1_close_clears (st : BrokerState) (ws : Nat) (tok : String) (conn : LiveConnection)
    (hopen : isOpen st ws = true)
    (hl : getLive st tok = some conn) :
    (st.handlers.find? (fun p => p.1 == ws) = some (ws, ⟨tok, "app"⟩) →
      getLive (closeEvent st ws) tok = some { conn with appSocket := none })
    ∧ (st.handlers.find? (fun p => p.1 == ws) = some (ws, ⟨tok, "gateway"⟩) →
      getLive (closeEvent st ws) tok = some { conn with gatewaySocket := none }) := by
  have hg1 : getLive { st with closed := ws :: st.closed } tok = some conn := hl
  constructor
  · intro hh
    simp only [closeEvent, hopen, Bool.not_true, Bool.false_eq_true, if_false, hh, hg1]
    cases hgw : conn.gatewaySocket with
    | none => exact getLive_setLive _ _ _
    | some g => exact getLive_setLive _ _ _
  · intro hh
    simp only [closeEvent, hopen, Bool.not_true, Bool.false_eq_true, if_false, hh, hg1]
    cases hap : conn.appSocket with
    | none => exact getLive_setLive _ _ _
    | some a => exact getLive_setLive _ _ _

/-- Witness for C1: socket 1, superseded by socket 2 in the app slot,
disconnects and clears the slot that held socket 2. -/
theorem c1_close_clears_witness :
    (stSuperseded.handlers.find? (fun p => p.1 == 1) = some (1, ⟨"t", "app"⟩) →
      getLive (closeEvent stSuperseded 1) ("t") = some ⟨"t", none, none⟩)
    ∧ (stSuperseded.handlers.find? (fun p => p.1 == 1) = some (1, ⟨"t", "gateway"⟩) →
      getLive (closeEvent stSuperseded 1) ("t") = some ⟨"t", some 2, none⟩) :=
  c1_close_clears stSuperseded 1 ("t") ⟨"t", some 2, none⟩ (by decide) (by decide)

/-- Claim C1 counterexample: in a full trace, app socket 2 is admitted,
then superseded by app socket 3; when the superseded socket 2 closes, the
slot is emptied even though the never-closed socket 3 was installed —
contradicting "leaves the newer occupant installed and does not clear the
slot". -/
theorem c1_counterexample :
    ((getLive (run (demoDB, initBroker)
        [.connect 2 (some ("tok1")) (some ("app")) (some ("sess_demo")) 0,
         .connect 3 (some ("tok1")) (some ("app")) (some ("sess_demo")) 0]).2 ("tok1")).map
      (fun c => c.appSocket) = some (some 3))
    ∧ ((getLive (run (demoDB, initBroker)
        [.connect 2 (some ("tok1")) (some ("app")) (some ("sess_demo")) 0,
         .connect 3 (some ("tok1")) (some ("app")) (some ("sess_demo")) 0,
         .close 2]).2 ("tok1")).map (fun c => c.appSocket) = some none)
    ∧ ¬ (3 ∈ (run (demoDB, initBroker)
        [.connect 2 (some ("tok1")) (some ("app")) (some ("sess_demo")) 0,
         .connect 3 (some ("tok1")) (some ("app")) (some ("sess_demo")) 0,
         .close 2]).2.closed) := by decide

/-- Claim C2 (amended): for either role, after a replacement the prior
socket is abandoned as a sink — a peer message is relayed only to the
slot's current occupant, which is a different socket — but not as a
source: the prior socket's message handler stays attached and reads the
current slots, so a payload it sends is still forwarded to the peer.  The
first conjunct covers a superseded app-slot socket (with a gateway peer),
the second a superseded gateway-slot socket (with an app peer). -/
theorem c2_superseded (st : BrokerState) (tok : String) (conn : LiveConnection) (pl : String)
    (hl : getLive st tok = some conn) :
    (∀ p q g, isOpen st p = true → isOpen st g = true → isOpen st q = true →
        st.handlers.find? (fun x => x.1 == p) = some (p, ⟨tok, "app"⟩) →
        st.handlers.find? (fun x => x.1 == g) = some (g, ⟨tok, "gateway"⟩) →
        conn.appSocket = some q → conn.gatewaySocket = some g → q ≠ p →
        (messageEvent st p (some pl)).sent = st.sent ++ [(g, .relay pl)]
        ∧ (messageEvent st g (some pl)).sent = st.sent ++ [(q, .relay pl)]
        ∧ g ≠ p)
    ∧ (∀ p q a, isOpen st p = true → isOpen st a = true → isOpen st q = true →
        st.handlers.find? (fun x => x.1 == p) = some (p, ⟨tok, "gateway"⟩) →
        st.handlers.find? (fun x => x.1 == a) = some (a, ⟨tok, "app"⟩) →
        conn.gatewaySocket = some q → conn.appSocket = some a → q ≠ p →
        (messageEvent st p (some pl)).sent = st.sent ++ [(a, .relay pl)]
        ∧ (messageEvent st a (some pl)).sent = st.sent ++ [(q, .relay pl)]
        ∧ a ≠ p) := by
  constructor
  · intro p q g hop hog hoq hhp hhg happ hgw hne
    have hgp : g ≠ p := by
      intro he
      subst he
      rw [hhp] at hhg
      simp at hhg
    refine ⟨?_, ?_, hgp⟩
    · simp only [messageEvent, hop, Bool.not_true, Bool.false_eq_true, if_false, hhp, hl, hgw]
      simp [hog, send]
    · simp only [messageEvent, hog, Bool.not_true, Bool.false_eq_true, if_false, hhg, hl, happ]
      simp [hoq, send]
  · intro p q a hop hoa hoq hhp hha hgw happ hne
    have hap : a ≠ p := by
      intro he
      subst he
      rw [hhp] at hha
      simp at hha
    refine ⟨?_, ?_, hap⟩
    · simp only [messageEvent, hop, Bool.not_true, Bool.false_eq_true, if_false, hhp, hl, happ]
      simp [hoa, send]
    · simp only [messageEvent, hoa, Bool.not_true, Bool.false_eq_true, if_false, hha, hl, hgw]
      simp [hoq, send]

/-- Witness for C2 on a state with both slots superseded: app slot holds
3 (2 replaced), gateway slot holds 4 (1 replaced). -/
theorem c2_superseded_witness :
    (∀ p q g, isOpen stReplaced p = true → isOpen stReplaced g = true →
        isOpen stReplaced q = true →
        stReplaced.handlers.find? (fun x => x.1 == p) = some (p, ⟨"t", "app"⟩) →
        stReplaced.handlers.find? (fun x => x.1 == g) = some (g, ⟨"t", "gateway"⟩) →
        (⟨"t", some 3, some 4⟩ : LiveConnection).appSocket = some q →
        (⟨"t", some 3, some 4⟩ : LiveConnection).gatewaySocket = some g → q ≠ p →
        (messageEvent stReplaced p (some ("hello"))).sent
          = stReplaced.sent ++ [(g, .relay ("hello"))]
        ∧ (messageEvent stReplaced g (some ("hello"))).sent
          = stReplaced.sent ++ [(q, .relay ("hello"))]
        ∧ g ≠ p)
    ∧ (∀ p q a, isOpen stReplaced p = true → isOpen stReplaced a = true →
        isOpen stReplaced q = true →
        stReplaced.handlers.find? (fun x => x.1 == p) = some (p, ⟨"t", "gateway"⟩) →
        stReplaced.handlers.find? (fun x => x.1 == a) = some (a, ⟨"t", "app"⟩) →
        (⟨"t", some 3, some 4⟩ : LiveConnection).gatewaySocket = some q →
        (⟨"t", some 3, some 4⟩ : LiveConnection).appSocket = some a → q ≠ p →
        (messageEvent stReplaced p (some ("hello"))).sent
          = stReplaced.sent ++ [(a, .relay ("hello"))]
        ∧ (messageEvent stReplaced a (some ("hello"))).sent
          = stReplaced.sent ++ [(q, .relay ("hello"))]
        ∧ a ≠ p) :=
  c2_superseded stReplaced ("t") ⟨"t", some 3, some 4⟩ ("hello") (by decide)

/-- Claim C2 counterexample: gateway 1 and app 2 connect, app 3 supersedes
app 2; a payload then sent by the replaced socket 2 is still forwarded to
gateway 1, contradicting "no message is ever relayed through the prior
socket ... as a source". -/
theorem c2_counterexample :
    ((getLive (run (demoDB, initBroker)
        [.connect 1 (some ("tok1")) (some ("gateway")) none 0,
         .connect 2 (some ("tok1")) (some ("app")) (some ("sess_demo")) 0,
         .connect 3 (some ("tok1")) (some ("app")) (some ("sess_demo")) 0]).2 ("tok1")).map
      (fun c => c.appSocket) = some (some 3))
    ∧ ((run (demoDB, initBroker)
        [.connect 1 (some ("tok1")) (some ("gateway")) none 0,
         .connect 2 (some ("tok1")) (some ("app")) (some ("sess_demo")) 0,
         .connect 3 (some ("tok1")) (some ("app")) (some ("sess_demo")) 0,
         .message 2 (some ("hello"))]).2.sent.contains (1, Msg.relay ("hello")) = true) := by
  decide

/- ===== Claim C9 ===== -/

theorem generateCodeVal_lb (q : ℚ) (h0 : 0 ≤ q) : 100000 ≤ generateCodeVal q := by
  unfold generateCodeVal
  rw [Int.le_floor]
  push_cast
  nlinarith

theorem generateCodeVal_ub (q : ℚ) (h1 : q < 1) : generateCodeVal q ≤ 999999 := by
  unfold generateCodeVal
  have h : ⌊(100000 : ℚ) + q * 900000⌋ < 1000000 := by
    rw [Int.floor_lt]
    push_cast
    nlinarith
  omega

theorem natToDecimal_six (m : Nat) (h1 : 100000 ≤ m) (h2 : m < 1000000) :
    (natToDecimal m).length = 6 ∧ (natToDecimal m).data.head? ≠ some ('0') := by
  have hm0 : m ≠ 0 := by omega
  have hne : (m == 0) = false := by simp [hm0]
  have hlog : Nat.log 10 m = 5 := by
    apply Nat.log_eq_of_pow_le_of_lt_pow
    · have hp : (10 : Nat) ^ 5 = 100000 := by norm_num
      omega
    · have hp : (10 : Nat) ^ (5 + 1) = 1000000 := by norm_num
      omega
  have hlen : (Nat.digits 10 m).length = 6 := by
    rw [Nat.digits_len 10 m (by norm_num) hm0, hlog]
  have hnil : Nat.digits 10 m ≠ [] := by
    intro hcon
    rw [hcon] at hlen
    simp at hlen
  constructor
  · simp only [natToDecimal, hne, Bool.false_eq_true, if_false]
    show ((Nat.digits 10 m).reverse.map digitChar).length = 6
    rw [List.length_map, List.length_reverse, hlen]
  · simp only [natToDecimal, hne, Bool.false_eq_true, if_false]
    show (((Nat.digits 10 m).reverse.map digitChar).head? ≠ some ('0'))
    rw [List.head?_map, List.head?_reverse]
    have hd0 : (Nat.digits 10 m).getLast hnil ≠ 0 := Nat.getLast_digit_ne_zero 10 hm0
    have hd10 : (Nat.digits 10 m).getLast hnil < 10 :=
      Nat.digits_lt_base (by norm_num) (List.getLast_mem hnil)
    rw [List.getLast?_eq_getLast_of_ne_nil hnil]
    intro hcon
    have hch : digitChar ((Nat.digits 10 m).getLast hnil) = '0' := by simpa using hcon
    revert hch
    generalize (Nat.digits 10 m).getLast hnil = d at hd0 hd10
    interval_cases d
    all_goals intro hch
    all_goals first
      | exact absurd rfl hd0
      | exact absurd hch (by decide)

/-- Claim C9 (amended): generateCode draws a uniformly distributed value
in the integer range 100000–999999 (the rendered string is always exactly
6 characters), so a leading zero never occurs: the strings 000000 through
099999 are not possible outputs. -/
theorem c9_code_range (q : ℚ) (h0 : 0 ≤ q) (h1 : q < 1) :
    100000 ≤ generateCodeVal q ∧ generateCodeVal q ≤ 999999
    ∧ (generateCode q).length = 6
    ∧ (generateCode q).data.head? ≠ some ('0') := by
  have hlb := generateCodeVal_lb q h0
  have hub := generateCodeVal_ub q h1
  have h6 := natToDecimal_six (generateCodeVal q).toNat (by omega) (by omega)
  exact ⟨hlb, hub, h6.1, h6.2⟩

/-- Witness for C9 at the random draw one half. -/
theorem c9_code_range_witness :
    100000 ≤ generateCodeVal (1 / 2) ∧ generateCodeVal (1 / 2) ≤ 999999
    ∧ (generateCode (1 / 2)).length = 6
    ∧ (generateCode (1 / 2)).data.head? ≠ some ('0') :=
  c9_code_range (1 / 2) (by norm_num) (by norm_num)

/-- Claim C9 counterexample: no value of Math.random can make generateCode
render the string 000000, contradicting "every string from 000000 to
999999 is a possible output". -/
theorem c9_counterexample :
    ¬ ∃ q : ℚ, 0 ≤ q ∧ q < 1 ∧ generateCode q = "000000" := by
  rintro ⟨q, h0, h1, hq⟩
  have hlb := generateCodeVal_lb q h0
  have hub := generateCodeVal_ub q h1
  have h6 := natToDecimal_six (generateCodeVal q).toNat (by omega) (by omega)
  have hh : (generateCode q).data.head? = some ('0') := by
    rw [hq]
    rfl
  exact h6.2 hh
